import Mathlib

/-!
Verification of the flight-price-checker monitoring core.

Shallow embedding of the monitor scheduling and price-change notification
engine of the repository (src/flight_checker.py, src/selenium_manager.py,
src/config_manager.py).  Pure decision logic is translated into executable
Lean functions; the surrounding IO (telegram, selenium, file system) is
modelled by explicit data passed to those functions.
-/

namespace FlightPriceChecker

/-! ## Notification preference types (src/config_manager.py, lines 28-35)

The five string literals of the NotificationPreferenceType Literal type. -/

inductive NotificationPreferenceType where
  | PRICE_DROP_THRESHOLD
  | PRICE_DROP_ANY
  | ANY_PRICE_CHANGE
  | TARGET_PRICE_REACHED
  | HISTORICAL_LOW_UPDATED
deriving DecidableEq, Repr

/-! ## The notify decision of a monitoring cycle
(src/flight_checker.py, monitor_job, lines 1351-1399)

The job reads old_restr = state.get("restricted", 0) and
old_overall = state.get("overall", 0), fetches (restricted, overall)
prices (each possibly None), and sends the price-drop message iff
price_change_occurred, which is set by the two independent checks

  if restricted is not None and old_restr > 0 and restricted < old_restr
  if overall is not None and old_overall > 0 and overall < old_overall

No field of the user's notification configuration is consulted. -/

def monitor_notify (old_restr old_overall : Nat)
    (restricted overall : Option Nat) : Bool :=
  let dropRestricted :=
    match restricted with
    | some r => decide (old_restr > 0) && decide (r < old_restr)
    | none => false
  let dropOverall :=
    match overall with
    | some o => decide (old_overall > 0) && decide (o < old_overall)
    | none => false
  dropRestricted || dropOverall

/-- Modelled from the spec: the decision table of section 4.3
(NotificationPolicyEngine), one row per notificationMode, applied to a
single (old, new) price pair.  This definition follows the spec's words;
it exists only to be compared with the decision the code implements. -/
def specTableFires (mode : NotificationPreferenceType)
    (thresholdAmount : Nat) (targetPrice : Option Nat)
    (old new : Nat) : Bool :=
  match mode with
  | .PRICE_DROP_THRESHOLD =>
      decide (new < old) && decide (old > 0) && decide (old - new ≥ thresholdAmount)
  | .PRICE_DROP_ANY => decide (new < old) && decide (old > 0)
  | .ANY_PRICE_CHANGE => decide (new ≠ old) && decide (old > 0)
  | .TARGET_PRICE_REACHED =>
      match targetPrice with
      | some t => decide (new ≤ t)
      | none => false
  | .HISTORICAL_LOW_UPDATED => decide (new < old) && decide (old > 0)

/-- The spec's ANY_DROP row lifted to an optional new price, the shape in
which monitor_job sees a fetched price. -/
def specAnyDropOpt (old : Nat) (new : Option Nat) : Bool :=
  match new with
  | some n => specTableFires .PRICE_DROP_ANY 0 none old n
  | none => false

/-! ## The retry loop of fetch_prices
(src/flight_checker.py, _fetch_with_retry, lines 714-745; the identical
loop also appears in src/selenium_manager.py, lines 291-322)

for attempt in range(max_retries):
    try: return await selenium_manager.fetch_prices_async(...)
    except (NoFlightDataException, NoMatchingFlightsException):
        if attempt == max_retries - 1: raise
    except Exception:
        if attempt == max_retries - 1: raise Exception(...)
        wait_time = 5 * (attempt + 1); await asyncio.sleep(wait_time)

The external call is modelled by a function from the attempt index to its
outcome.  The result records the final outcome, the list of backoff sleeps
performed (in seconds, chronological), and the number of attempts made. -/

inductive AttemptOutcome where
  | success (v : Nat)
  | noFlightData
  | noMatchingFlights
  | transient
deriving DecidableEq, Repr

inductive RetryOutcome where
  | ok (v : Nat)
  | errNoFlightData
  | errNoMatchingFlights
  | errGeneric
  | errUnknown
deriving DecidableEq, Repr

structure RetryResult where
  outcome : RetryOutcome
  sleeps : List Nat
  attempts : Nat
deriving DecidableEq, Repr

def retryLoop (outcomes : Nat → AttemptOutcome) (max_retries attempt : Nat) :
    RetryResult :=
  if h : attempt < max_retries then
    match outcomes attempt with
    | .success v => ⟨.ok v, [], 1⟩
    | .noFlightData =>
        if attempt = max_retries - 1 then ⟨.errNoFlightData, [], 1⟩
        else
          let r := retryLoop outcomes max_retries (attempt + 1)
          ⟨r.outcome, r.sleeps, r.attempts + 1⟩
    | .noMatchingFlights =>
        if attempt = max_retries - 1 then ⟨.errNoMatchingFlights, [], 1⟩
        else
          let r := retryLoop outcomes max_retries (attempt + 1)
          ⟨r.outcome, r.sleeps, r.attempts + 1⟩
    | .transient =>
        if attempt = max_retries - 1 then ⟨.errGeneric, [], 1⟩
        else
          let r := retryLoop outcomes max_retries (attempt + 1)
          ⟨r.outcome, 5 * (attempt + 1) :: r.sleeps, r.attempts + 1⟩
  else
    ⟨.errUnknown, [], 0⟩
termination_by max_retries - attempt
decreasing_by all_goals omega

def fetch_with_retry (outcomes : Nat → AttemptOutcome) (max_retries : Nat) :
    RetryResult :=
  retryLoop outcomes max_retries 0

/-! ## Startup recovery scheduling
(src/flight_checker.py, on_startup, lines 1852-1928)

For each persisted slot the code parses last_fetch; when the field is
missing or strptime fails it sets last_fetch = now - timedelta(minutes=31),
so that delta = now - last_fetch is 31 minutes.  With interval = 30 minutes
it then schedules an immediate one-shot catch-up job when delta >= interval,
and a repeating job whose first firing is delayed by

  interval                              if delta < 0
  interval - (delta % interval)         otherwise
  (with a dead guard replacing a zero delay by interval).

Durations are modelled in seconds as integers. -/

def startupInterval : Int := 1800

def startupElapsedSeconds (lastFetchParsed : Option Int) (nowT : Int) : Int :=
  match lastFetchParsed with
  | none => 31 * 60
  | some t => nowT - t

structure StartupSchedule where
  catchUp : Bool
  firstDelay : Int
deriving DecidableEq, Repr

def on_startup_schedule (delta : Int) : StartupSchedule :=
  let catchUp := decide (delta ≥ startupInterval)
  let firstDelay :=
    if delta < 0 then startupInterval
    else
      let timeIntoCurrentCycle := delta % startupInterval
      let d := startupInterval - timeIntoCurrentCycle
      if d = 0 ∧ delta > 0 then startupInterval else d
  ⟨catchUp, firstDelay⟩

/-! ## Per-monitor persisted state and the monitor_job cycle
(src/flight_checker.py, monitor_job, lines 1325-1445;
 monitor_setting, lines 1139-1146; save_json_data, lines 1969-1973)

The slot is the JSON record
  {start_time, restricted, overall, last_fetch,
   time_setting_outbound, time_setting_inbound}.
-/

structure MonitorState where
  start_time : Option String
  restricted : Nat
  overall : Nat
  last_fetch : String
  time_setting_outbound : String
  time_setting_inbound : String
deriving DecidableEq, Repr

/-- The initial slot written by monitor_setting (lines 1139-1146):
"restricted": restricted or 0, "overall": overall or 0 — a fetch price that
is None (or 0) is stored as 0. -/
def initial_monitor_state (restricted overall : Option Nat)
    (start_time now cfgOut cfgIn : String) : MonitorState :=
  { start_time := some start_time
    restricted := (restricted.getD 0)
    overall := (overall.getD 0)
    last_fetch := now
    time_setting_outbound := cfgOut
    time_setting_inbound := cfgIn }

/-- Outcome of the fetch step of one cycle, as seen by monitor_job: a
success carries the two optional prices; the three failure shapes are the
exception types that reach the job after fetch_prices exhausts its
attempts. -/
inductive CycleFetch where
  | ok (restricted overall : Option Nat)
  | noMatchingFlights
  | noFlightData
  | generic
deriving DecidableEq, Repr

/-- The prices monitor_job ends the cycle with: on any exception the local
variables restricted and overall keep their initial value None
(line 1353). -/
def fetchedPrices : CycleFetch → Option Nat × Option Nat
  | .ok r o => (r, o)
  | _ => (none, none)

/-- The merged record built at lines 1432-1439: new price if not None else
old, last_fetch set to now, time settings re-read from the current user
config, start_time carried over. -/
def merged_state (state : MonitorState) (fetch : CycleFetch)
    (now cfgOut cfgIn : String) : MonitorState :=
  let p := fetchedPrices fetch
  { start_time := state.start_time
    restricted := (p.1.getD state.restricted)
    overall := (p.2.getD state.overall)
    last_fetch := now
    time_setting_outbound := cfgOut
    time_setting_inbound := cfgIn }

/-- Result of running monitor_job once against a slot that may have been
deleted before the job started. -/
inductive CycleResult where
  | wrote (newState : MonitorState) (notified : Bool)
  | skippedNoSlot
  | crashedUnboundLocal
deriving DecidableEq, Repr

/-- One full run of monitor_job (lines 1325-1445).

If the slot file is gone the job removes itself without writing
(lines 1331-1334).  On a NoMatchingFlightsException with a previously
nonzero price, the handler at lines 1403-1425 evaluates dep_city
(line 1409), a local assigned only at line 1362 inside the try block after
the fetch call — the fetch raised before that assignment, so the handler
raises UnboundLocalError and the job aborts before the state save at
lines 1431-1445.  Every other path falls through to the save of the
merged record. -/
def monitor_job (slot : Option MonitorState) (fetch : CycleFetch)
    (now cfgOut cfgIn : String) : CycleResult :=
  match slot with
  | none => .skippedNoSlot
  | some state =>
      match fetch with
      | .noMatchingFlights =>
          if state.restricted ≠ 0 ∨ state.overall ≠ 0 then .crashedUnboundLocal
          else .wrote (merged_state state .noMatchingFlights now cfgOut cfgIn) false
      | f =>
          let p := fetchedPrices f
          .wrote (merged_state state f now cfgOut cfgIn)
            (monitor_notify state.restricted state.overall p.1 p.2)

/-- The write step in isolation (save_json_data, lines 1969-1973): the
slot file is opened with mode w under the file lock, which creates the
file when it does not exist — the write is unconditional. -/
def save_json_data (_slot : Option MonitorState) (newState : MonitorState) :
    Option MonitorState :=
  some newState

/-- Explicit cancellation (cancel_callback, lines 1634-1654): the slot
file is unlinked and the pending jobs with its name are removed. -/
def cancel_monitor (_slot : Option MonitorState) : Option MonitorState :=
  none

/-! ## The daily retention sweep over monitor slots
(src/flight_checker.py, cleanup_old_data, lines 1982-2026)

For each price_*.json file: a json.JSONDecodeError deletes the file; a
missing (or empty) start_time deletes the file; otherwise start_time is
parsed with strptime and the file is deleted iff start_time < cutoff where
cutoff = now - retention_days.  A strptime ValueError is caught by the
generic handler at line 2025, which only logs a warning.

A slot is modelled by its parse results: corrupt JSON, or a record whose
start_time field is absent/empty (none), present but not of the format
YYYY-MM-DD HH:MM:SS (some none), or a parsed timestamp (some (some t),
seconds).  last_fetch is carried to show the decision never reads it. -/

inductive SlotParse where
  | corrupt
  | record (start_time : Option (Option Int)) (last_fetch : Option Int)
deriving DecidableEq, Repr

def cleanup_old_data_deletes (slot : SlotParse)
    (nowT : Int) (retention_days : Int) : Bool :=
  match slot with
  | .corrupt => true
  | .record none _ => true
  | .record (some none) _ => false
  | .record (some (some t)) _ => decide (t < nowT - retention_days * 86400)

/-! ## The single fetch attempt
(src/selenium_manager.py, SeleniumManager._fetch_single, lines 169-249 and
check_time_restrictions, lines 79-123; the same code appears in
src/flight_checker.py, lines 210-284 and 649-693)

A scraped DOM item is modelled by the two pure results computed from its
text: whether the text contains the stopover marker (the "경유" substring
test at line 201), and what parse_flight_info returns for it (None or the
tuple of four HH:MM times and the price).  Times are (hour, minute)
pairs. -/

inductive TimePeriod where
  | dawn | morning1 | morning2 | afternoon1 | afternoon2 | night1 | night2
deriving DecidableEq, Repr

/-- TIME_PERIODS (src/config_manager.py, lines 52-60): the (start, end)
hour band of each named period. -/
def periodRange : TimePeriod → Nat × Nat
  | .dawn => (0, 6)
  | .morning1 => (6, 9)
  | .morning2 => (9, 12)
  | .afternoon1 => (12, 15)
  | .afternoon2 => (15, 18)
  | .night1 => (18, 21)
  | .night2 => (21, 24)

inductive TimeType where
  | time_period | exact
deriving DecidableEq, Repr

structure UserConfig where
  time_type : TimeType
  outbound_periods : List TimePeriod
  inbound_periods : List TimePeriod
  outbound_exact_hour : Nat
  inbound_exact_hour : Nat
deriving DecidableEq, Repr

/-- datetime.time comparison on (hour, minute) pairs. -/
def timeLt (a b : Nat × Nat) : Bool :=
  decide (a.1 < b.1) || (decide (a.1 = b.1) && decide (a.2 < b.2))

/-- check_time_restrictions (src/selenium_manager.py, lines 79-123):
in time_period mode the outbound departure hour must fall in one of the
selected outbound bands and the return departure hour in one of the
selected inbound bands; in exact mode the outbound departure must not be
after outbound_exact_hour:00 and the return departure must not be before
inbound_exact_hour:00. -/
def check_time_restrictions (dep_t ret_t : Nat × Nat) (config : UserConfig) :
    Bool :=
  match config.time_type with
  | .time_period =>
      let okOut := config.outbound_periods.any fun p =>
        decide ((periodRange p).1 ≤ dep_t.1) && decide (dep_t.1 < (periodRange p).2)
      let okIn := config.inbound_periods.any fun p =>
        decide ((periodRange p).1 ≤ ret_t.1) && decide (ret_t.1 < (periodRange p).2)
      okOut && okIn
  | .exact =>
      !(timeLt (config.outbound_exact_hour, 0) dep_t) &&
      !(timeLt ret_t (config.inbound_exact_hour, 0))

/-- The tuple parse_flight_info returns for one item
(src/selenium_manager.py, lines 49-76). -/
structure FlightInfo where
  dep_departure : Nat × Nat
  dep_arrival : Nat × Nat
  ret_departure : Nat × Nat
  ret_arrival : Nat × Nat
  price : Nat
deriving DecidableEq, Repr

structure RawItem where
  hasStopover : Bool
  parsed : Option FlightInfo
deriving DecidableEq, Repr

structure FetchAcc where
  overall_price : Option Nat
  restricted_price : Option Nat
  found_any_price : Bool
deriving DecidableEq, Repr

/-- The running-minimum update pattern of the loop, literally
"if cur is None or price < cur: cur = price". -/
def updateMin (cur : Option Nat) (price : Nat) : Option Nat :=
  match cur with
  | none => some price
  | some q => if price < q then some price else some q

/-- The body of the item loop of _fetch_single (lines 197-229): skip
stopover items and unparsable items; otherwise record that a price was
found, lower the overall minimum, and lower the restricted minimum when
the item passes the time restrictions. -/
def fetchStep (config : UserConfig) (acc : FetchAcc) (item : RawItem) :
    FetchAcc :=
  if item.hasStopover then acc
  else
    match item.parsed with
    | none => acc
    | some fi =>
        { overall_price := updateMin acc.overall_price fi.price
          restricted_price :=
            if check_time_restrictions fi.dep_departure fi.ret_departure config then
              updateMin acc.restricted_price fi.price
            else acc.restricted_price
          found_any_price := true }

structure FetchOk where
  restricted : Option Nat
  overall : Option Nat
deriving DecidableEq, Repr

inductive FetchErr where
  | noFlightData
  | noMatchingFlights
deriving DecidableEq, Repr

/-- _fetch_single (lines 169-249): raise NoFlightDataException when the
scrape produced no items at all (line 192-194); run the loop; raise
NoMatchingFlightsException when no item yielded a parsed price
(lines 231-233); otherwise return the two optional minima. -/
def fetch_single (items : List RawItem) (config : UserConfig) :
    Except FetchErr FetchOk :=
  if items.isEmpty then .error .noFlightData
  else
    let acc := items.foldl (fetchStep config) ⟨none, none, false⟩
    if acc.found_any_price then .ok ⟨acc.restricted_price, acc.overall_price⟩
    else .error .noMatchingFlights

/-- The invariant that the item loop of _fetch_single maintains: once a
price has been found the overall minimum is set, and whenever the
restricted minimum is set the overall minimum is set and is not larger,
because every item feeding the restricted minimum also feeds the overall
minimum. -/
def FetchInv (acc : FetchAcc) : Prop :=
  (acc.found_any_price = true → acc.overall_price.isSome = true) ∧
  (∀ rp, acc.restricted_price = some rp →
     ∃ op, acc.overall_price = some op ∧ op ≤ rp)

/-! ## Helper lemmas -/

/-- A retry loop whose every attempt raises NoFlightDataException makes
all its remaining attempts and then surfaces that exception, with no
backoff sleep. -/
theorem retryLoop_const_noFlightData (d : Nat) :
    ∀ (m a : Nat), a + d + 1 = m →
      retryLoop (fun _ => .noFlightData) m a = ⟨.errNoFlightData, [], d + 1⟩ := by
  induction d with
  | zero =>
      intro m a h
      rw [retryLoop]
      have h1 : a < m := by omega
      have h2 : a = m - 1 := by omega
      simp [h1, h2]
      omega
  | succ d ih =>
      intro m a h
      rw [retryLoop]
      have h1 : a < m := by omega
      have h2 : ¬ a = m - 1 := by omega
      simp only [h1, dif_pos, h2, if_false, if_neg, not_false_iff]
      rw [ih m (a + 1) (by omega)]

/-- A retry loop whose every attempt raises NoMatchingFlightsException
makes all its remaining attempts and then surfaces that exception, with no
backoff sleep. -/
theorem retryLoop_const_noMatching (d : Nat) :
    ∀ (m a : Nat), a + d + 1 = m →
      retryLoop (fun _ => .noMatchingFlights) m a = ⟨.errNoMatchingFlights, [], d + 1⟩ := by
  induction d with
  | zero =>
      intro m a h
      rw [retryLoop]
      have h1 : a < m := by omega
      have h2 : a = m - 1 := by omega
      simp [h1, h2]
      omega
  | succ d ih =>
      intro m a h
      rw [retryLoop]
      have h1 : a < m := by omega
      have h2 : ¬ a = m - 1 := by omega
      simp only [h1, dif_pos, h2, if_false, if_neg, not_false_iff]
      rw [ih m (a + 1) (by omega)]

/-- A retry loop whose every attempt fails with a generic error sleeps
5 * (attempt + 1) seconds between consecutive attempts and surfaces a
generic error after the last one. -/
theorem retryLoop_const_transient (d : Nat) :
    ∀ (m a : Nat), a + d + 1 = m →
      retryLoop (fun _ => .transient) m a =
        ⟨.errGeneric, (List.range' (a + 1) d).map (fun k => 5 * k), d + 1⟩ := by
  induction d with
  | zero =>
      intro m a h
      rw [retryLoop]
      have h1 : a < m := by omega
      have h2 : a = m - 1 := by omega
      simp [h1, h2]
      omega
  | succ d ih =>
      intro m a h
      rw [retryLoop]
      have h1 : a < m := by omega
      have h2 : ¬ a = m - 1 := by omega
      simp only [h1, dif_pos, h2, if_false, if_neg, not_false_iff]
      rw [ih m (a + 1) (by omega)]
      simp [List.range'_succ]

/-- updateMin computes a minimum: the price when nothing was recorded yet,
the smaller of the two otherwise. -/
theorem updateMin_eq (cur : Option Nat) (p : Nat) :
    updateMin cur p = some (cur.elim p (min p)) := by
  cases cur with
  | none => rfl
  | some q =>
      simp only [updateMin, Option.elim_some]
      split <;> simp <;> omega

/-- Items that carry the stopover marker or fail to parse leave the
accumulator untouched. -/
theorem fetchStep_skip (config : UserConfig) (acc : FetchAcc) (item : RawItem)
    (h : item.hasStopover = true ∨ item.parsed = none) :
    fetchStep config acc item = acc := by
  cases hs : item.hasStopover <;> rcases h with h | h <;> simp_all [fetchStep]

/-- The explicit form of the loop body on a parsed direct flight. -/
theorem fetchStep_eq_of_parsed (config : UserConfig) (acc : FetchAcc)
    (item : RawItem) (fi : FlightInfo)
    (h1 : item.hasStopover = false) (h2 : item.parsed = some fi) :
    fetchStep config acc item =
      { overall_price := updateMin acc.overall_price fi.price
        restricted_price :=
          if check_time_restrictions fi.dep_departure fi.ret_departure config then
            updateMin acc.restricted_price fi.price
          else acc.restricted_price
        found_any_price := true } := by
  simp [fetchStep, h1, h2]

/-- found_any_price is set exactly by parseable direct-flight items. -/
theorem fetchStep_found (config : UserConfig) (acc : FetchAcc) (item : RawItem) :
    (fetchStep config acc item).found_any_price =
      (acc.found_any_price || (!item.hasStopover && item.parsed.isSome)) := by
  cases hs : item.hasStopover with
  | true => rw [fetchStep_skip config acc item (Or.inl hs)]; simp [hs]
  | false =>
      cases hp : item.parsed with
      | none => rw [fetchStep_skip config acc item (Or.inr hp)]; simp [hs, hp]
      | some fi => rw [fetchStep_eq_of_parsed config acc item fi hs hp]; simp [hs, hp]

/-- found_any_price after the whole loop. -/
theorem foldl_fetchStep_found (config : UserConfig) :
    ∀ (items : List RawItem) (acc : FetchAcc),
      (items.foldl (fetchStep config) acc).found_any_price =
        (acc.found_any_price || items.any fun i => !i.hasStopover && i.parsed.isSome) := by
  intro items
  induction items with
  | nil => simp
  | cons i is ih =>
      intro acc
      simp only [List.foldl_cons, List.any_cons, ih, fetchStep_found, Bool.or_assoc]

/-- One loop iteration preserves the fetch invariant. -/
theorem fetchStep_inv (config : UserConfig) (acc : FetchAcc) (item : RawItem)
    (hinv : FetchInv acc) : FetchInv (fetchStep config acc item) := by
  obtain ⟨hfound, hrel⟩ := hinv
  cases hs : item.hasStopover with
  | true => rw [fetchStep_skip config acc item (Or.inl hs)]; exact ⟨hfound, hrel⟩
  | false =>
    cases hp : item.parsed with
    | none => rw [fetchStep_skip config acc item (Or.inr hp)]; exact ⟨hfound, hrel⟩
    | some fi =>
        rw [fetchStep_eq_of_parsed config acc item fi hs hp]
        constructor
        · intro _
          simp [updateMin_eq]
        · intro rp hrp
          dsimp only at hrp ⊢
          rw [updateMin_eq] at hrp ⊢
          refine ⟨_, rfl, ?_⟩
          split at hrp
          · injection hrp with hrp
            cases hres : acc.restricted_price with
            | none =>
                rw [hres] at hrp
                simp only [Option.elim_none] at hrp
                cases acc.overall_price with
                | none => simp only [Option.elim_none]; omega
                | some q => simp only [Option.elim_some]; omega
            | some r =>
                rw [hres] at hrp
                simp only [Option.elim_some] at hrp
                obtain ⟨op, hop, hle⟩ := hrel r hres
                rw [hop]
                simp only [Option.elim_some]
                omega
          · obtain ⟨op, hop, hle⟩ := hrel rp hrp
            rw [hop]
            simp only [Option.elim_some]
            omega

/-- The whole loop preserves the fetch invariant. -/
theorem foldl_fetchStep_inv (config : UserConfig) :
    ∀ (items : List RawItem) (acc : FetchAcc),
      FetchInv acc → FetchInv (items.foldl (fetchStep config) acc) := by
  intro items
  induction items with
  | nil => intro acc h; exact h
  | cons i is ih => intro acc h; exact ih _ (fetchStep_inv config acc i h)

/-- An item updates no price minimum exactly when it is a stopover or
fails to parse. -/
theorem item_skipped_iff (i : RawItem) :
    (!i.hasStopover && i.parsed.isSome) = false ↔
      (i.hasStopover = true ∨ i.parsed = none) := by
  cases i.hasStopover <;> cases i.parsed <;> simp

/-- A scrape yields no parseable direct flight exactly when every item is
a stopover or fails to parse. -/
theorem no_parseable_iff (items : List RawItem) :
    ((items.any fun i => !i.hasStopover && i.parsed.isSome) = false) ↔
      ∀ i ∈ items, i.hasStopover = true ∨ i.parsed = none := by
  rw [List.any_eq_false]
  constructor
  · intro h i hi
    exact (item_skipped_iff i).mp (by simpa using h i hi)
  · intro h i hi
    simpa using (item_skipped_iff i).mpr (h i hi)

/-! ## Claims -/

/-- Claim C1, counterexample: a THRESHOLD user with thresholdAmount 5000
whose restricted price drops from 10000 to 9999 (a 1-won drop, below the
threshold): the spec's decision table says no notification, yet the cycle
notifies — monitor_job never consults the notification mode. -/
theorem C1_counterexample :
    monitor_notify 10000 0 (some 9999) none = true ∧
    specTableFires .PRICE_DROP_THRESHOLD 5000 none 10000 9999 = false := by
  decide

/-- Claim C1, amended: for every notificationMode the notify decision of a
monitoring cycle is the same — the spec's ANY_DROP row applied
independently to the restricted and the overall pair — so two cycles
differing only in notificationMode never differ in whether they notify,
and the THRESHOLD, ANY_CHANGE, TARGET_PRICE and HISTORICAL_LOW rows of the
decision table are not implemented. -/
theorem C1_decision_ignores_mode (mode : NotificationPreferenceType)
    (old_restr old_overall : Nat) (restricted overall : Option Nat) :
    monitor_notify old_restr old_overall restricted overall =
      (specAnyDropOpt old_restr restricted || specAnyDropOpt old_overall overall) := by
  cases restricted <;> cases overall <;>
    simp [monitor_notify, specAnyDropOpt, specTableFires, Bool.and_comm]

/-- Claim C2, counterexample: with maxRetries = 3, an attempt sequence
whose first attempt raises the terminal NoFlightDataException and whose
second attempt succeeds: the claim says the terminal failure is surfaced
to the caller immediately after the first attempt, but the loop retries it
(with no backoff sleep) and returns the second attempt's success after two
attempts. -/
theorem C2_counterexample :
    fetch_with_retry (fun n => if n = 0 then .noFlightData else .success 100) 3 =
      ⟨.ok 100, [], 2⟩ ∧
    (fetch_with_retry (fun n => if n = 0 then .noFlightData else .success 100) 3).outcome ≠
      .errNoFlightData := by
  constructor
  · simp [fetch_with_retry, retryLoop]
  · simp [fetch_with_retry, retryLoop]

/-- Claim C2, amended: a transient (unclassified) failure is retried with
a synchronous backoff of 5 seconds times the 1-based attempt number, and a
terminal failure (NoFlightData or NoMatchingFlights) is also retried — but
immediately, with no backoff sleep — with its exception type surfaced to
the caller only after all maxRetries attempts have raised it. -/
theorem C2_terminal_retried_transient_backoff (max_retries : Nat)
    (h : 0 < max_retries) :
    fetch_with_retry (fun _ => .noFlightData) max_retries =
      ⟨.errNoFlightData, [], max_retries⟩ ∧
    fetch_with_retry (fun _ => .noMatchingFlights) max_retries =
      ⟨.errNoMatchingFlights, [], max_retries⟩ ∧
    fetch_with_retry (fun _ => .transient) max_retries =
      ⟨.errGeneric, (List.range' 1 (max_retries - 1)).map (fun k => 5 * k),
       max_retries⟩ := by
  unfold fetch_with_retry
  refine ⟨?_, ?_, ?_⟩
  · have := retryLoop_const_noFlightData (max_retries - 1) max_retries 0 (by omega)
    simpa [Nat.sub_add_cancel h] using this
  · have := retryLoop_const_noMatching (max_retries - 1) max_retries 0 (by omega)
    simpa [Nat.sub_add_cancel h] using this
  · have := retryLoop_const_transient (max_retries - 1) max_retries 0 (by omega)
    simpa [Nat.sub_add_cancel h] using this

/-- Claim C2, witness: with maxRetries = 3, an always-NoFlightData fetch
is attempted three times with no sleeps, and an always-transient fetch is
attempted three times with backoff sleeps of 5 and 10 seconds. -/
theorem C2_terminal_retried_transient_backoff_witness :
    0 < 3 ∧
    fetch_with_retry (fun _ => .noFlightData) 3 = ⟨.errNoFlightData, [], 3⟩ ∧
    fetch_with_retry (fun _ => .transient) 3 = ⟨.errGeneric, [5, 10], 3⟩ := by
  have h := C2_terminal_retried_transient_backoff 3 (by decide)
  exact ⟨by decide, h.1, by simpa using h.2.2⟩

/-- Claim C3: for every slot with elapsed = now - lastFetchAt at least the
30-minute interval, on_startup schedules an immediate one-shot catch-up
cycle, and the repeating cycle's first firing is delayed by
interval - (elapsed mod interval); a missing or unparsable lastFetchAt is
treated as 31 minutes ago — already overdue — forcing an immediate
catch-up. -/
theorem C3_startup_schedule (delta nowT : Int) (h : startupInterval ≤ delta) :
    (on_startup_schedule delta).catchUp = true ∧
    (on_startup_schedule delta).firstDelay = startupInterval - delta % startupInterval ∧
    startupElapsedSeconds none nowT = 1860 ∧
    (on_startup_schedule (startupElapsedSeconds none nowT)).catchUp = true := by
  have hparse : startupElapsedSeconds none nowT = 1860 := rfl
  refine ⟨?_, ?_, hparse, by rw [hparse]; decide⟩
  · unfold on_startup_schedule startupInterval at *
    simp only [decide_eq_true_eq]
    omega
  · unfold on_startup_schedule startupInterval at *
    have h0 : ¬ (delta < 0) := by omega
    have h1 : ¬ (1800 - delta % 1800 = 0 ∧ delta > 0) := by omega
    simp [h0, h1]

/-- Claim C3, witness: elapsed = 45 minutes (2700 s) gives a catch-up plus
a first regular firing 15 minutes (900 s) from now. -/
theorem C3_startup_schedule_witness :
    startupInterval ≤ (2700 : Int) ∧
    ((on_startup_schedule 2700).catchUp = true ∧
     (on_startup_schedule 2700).firstDelay = startupInterval - 2700 % startupInterval ∧
     startupElapsedSeconds none 1234 = 1860 ∧
     (on_startup_schedule (startupElapsedSeconds none 1234)).catchUp = true) ∧
    (on_startup_schedule 2700).firstDelay = 900 :=
  ⟨by decide, C3_startup_schedule 2700 1234 (by decide), by decide⟩

/-- Claim C4, code-bug evaluation: a cycle whose fetch ends in the
terminal NoMatchingFlightsException while the slot holds a nonzero price
crashes in the exception handler (UnboundLocalError on dep_city) before
the end-of-cycle save, so the merged state is not written and last_fetch
is not advanced; a cycle that exhausts its transient retries, by contrast,
does write the merged state with last_fetch advanced. -/
theorem C4_noMatching_crash_skips_write :
    monitor_job
        (some ⟨some "2025-09-01 12:00:00", 300000, 280000,
               "2025-09-10 09:30:00", "o", "i"⟩)
        .noMatchingFlights "2025-09-10 10:00:00" "o" "i" =
      .crashedUnboundLocal ∧
    monitor_job
        (some ⟨some "2025-09-01 12:00:00", 300000, 280000,
               "2025-09-10 09:30:00", "o", "i"⟩)
        .generic "2025-09-10 10:00:00" "o" "i" =
      .wrote ⟨some "2025-09-01 12:00:00", 300000, 280000,
              "2025-09-10 10:00:00", "o", "i"⟩ false := by
  decide

/-- Claim C5: when both stored prices are 0 (never observed) the notify
decision of a monitoring cycle is negative for every notification mode
other than TARGET_PRICE and for every fetched price pair — no drop-based
or change-based notification fires on the very first observation. -/
theorem C5_first_observation_silent (mode : NotificationPreferenceType)
    (_hmode : mode ≠ .TARGET_PRICE_REACHED) (r o : Option Nat) :
    monitor_notify 0 0 r o = false := by
  cases r <;> cases o <;> simp [monitor_notify]

/-- Claim C5, witness: mode PRICE_DROP_ANY, first observation 123456 and
99999 — no notification. -/
theorem C5_first_observation_silent_witness :
    (NotificationPreferenceType.PRICE_DROP_ANY ≠ .TARGET_PRICE_REACHED) ∧
    monitor_notify 0 0 (some 123456) (some 99999) = false :=
  ⟨by decide,
   C5_first_observation_silent .PRICE_DROP_ANY (by decide) (some 123456) (some 99999)⟩

/-- Claim C6, counterexample: after cancellation deletes the slot, the
write step of a still-in-flight cycle is not a no-op — save_json_data
opens the file in write mode, which recreates the deleted slot. -/
theorem C6_counterexample :
    cancel_monitor (some ⟨some "2025-09-01 12:00:00", 300000, 280000,
                          "2025-09-10 09:30:00", "o", "i"⟩) = none ∧
    save_json_data none
        ⟨some "2025-09-01 12:00:00", 250000, 240000,
         "2025-09-10 10:00:00", "o", "i"⟩ ≠ none := by
  decide

/-- Claim C6, amended: a cycle that begins after cancellation finds the
slot missing at its initial existence check and neither writes nor
notifies; but a cycle already past that check when the cancellation
happens completes its write unconditionally, recreating the slot with the
merged state instead of being a no-op. -/
theorem C6_cancel_semantics (s0 : MonitorState) (fetch : CycleFetch)
    (now cfgOut cfgIn : String) :
    monitor_job (cancel_monitor (some s0)) fetch now cfgOut cfgIn = .skippedNoSlot ∧
    save_json_data (cancel_monitor (some s0)) (merged_state s0 fetch now cfgOut cfgIn) =
      some (merged_state s0 fetch now cfgOut cfgIn) :=
  ⟨rfl, rfl⟩

/-- Claim C7, counterexample: a cycle fetching prices 200000/190000 over a
slot holding 100000/90000 stores the strictly larger new values — the
stored price fields increase, so they are not monotone minima. -/
theorem C7_counterexample :
    monitor_job (some ⟨some "2025-09-01 12:00:00", 100000, 90000,
                       "2025-09-10 09:30:00", "o", "i"⟩)
        (.ok (some 200000) (some 190000)) "2025-09-10 10:00:00" "o" "i" =
      .wrote ⟨some "2025-09-01 12:00:00", 200000, 190000,
              "2025-09-10 10:00:00", "o", "i"⟩ false ∧
    100000 < 200000 := by
  decide

/-- Claim C7, amended: the stored restrictedPrice and overallPrice are
each either 0 (never observed) or the most recently fetched observation —
a present fetched value overwrites the old one even when it is larger, so
whenever a fetch observes strictly higher prices the stored fields
increase to the new values (and no notification fires). -/
theorem C7_prices_track_last_observation (state : MonitorState) (n m : Nat)
    (now cfgOut cfgIn : String)
    (hr : state.restricted < n) (ho : state.overall < m) :
    monitor_job (some state) (.ok (some n) (some m)) now cfgOut cfgIn =
      .wrote { start_time := state.start_time, restricted := n, overall := m,
               last_fetch := now, time_setting_outbound := cfgOut,
               time_setting_inbound := cfgIn } false := by
  have h1 : ¬ (n < state.restricted) := by omega
  have h2 : ¬ (m < state.overall) := by omega
  simp [monitor_job, merged_state, fetchedPrices, monitor_notify, h1, h2]

/-- Claim C7, witness: stored prices 100000/90000 rise to 150000/145000
after a fetch observing those higher prices. -/
theorem C7_prices_track_last_observation_witness :
    (100000 < 150000 ∧ 90000 < 145000) ∧
    monitor_job (some ⟨some "s", 100000, 90000, "t0", "o", "i"⟩)
        (.ok (some 150000) (some 145000)) "t1" "o" "i" =
      .wrote { start_time := some "s", restricted := 150000, overall := 145000,
               last_fetch := "t1", time_setting_outbound := "o",
               time_setting_inbound := "i" } false :=
  ⟨by decide,
   C7_prices_track_last_observation ⟨some "s", 100000, 90000, "t0", "o", "i"⟩
     150000 145000 "t1" "o" "i" (by decide) (by decide)⟩

/-- Claim C8, counterexample: a scrape with one parsed direct flight
departing 13:00 under an exact-mode config requiring departure by 09:00 —
items were parsed but none satisfies the time constraints — does not raise
NoMatchingFlightsException: it returns a normal result with the restricted
price absent. -/
theorem C8_counterexample :
    check_time_restrictions (13, 0) (16, 0) ⟨.exact, [], [], 9, 15⟩ = false ∧
    fetch_single [⟨false, some ⟨(13, 0), (15, 0), (16, 0), (18, 0), 150000⟩⟩]
        ⟨.exact, [], [], 9, 15⟩ = .ok ⟨none, some 150000⟩ :=
  ⟨rfl, rfl⟩

/-- Claim C8, amended: NoFlightData is raised iff the scrape produced zero
items, and NoMatchingFlights is raised iff items were scraped but none of
them is a parseable direct flight; when parseable flights exist but none
satisfies the time constraints the attempt returns a normal result whose
restricted price is absent. -/
theorem C8_error_classification (items : List RawItem) (config : UserConfig) :
    (fetch_single items config = .error .noFlightData ↔ items = []) ∧
    (fetch_single items config = .error .noMatchingFlights ↔
       (items ≠ [] ∧ ∀ i ∈ items, i.hasStopover = true ∨ i.parsed = none)) := by
  have hfound := foldl_fetchStep_found config items ⟨none, none, false⟩
  simp only [Bool.false_or] at hfound
  unfold fetch_single
  cases items with
  | nil => simp
  | cons i is =>
      simp only [List.isEmpty_cons, Bool.false_eq_true, if_false, if_neg, not_false_iff]
      constructor
      · constructor
        · intro hcontra
          split at hcontra <;> simp_all
        · intro hcontra
          exact absurd hcontra (by simp)
      · simp only [ne_eq, reduceCtorEq, not_false_iff, true_and]
        rw [← no_parseable_iff]
        constructor
        · intro herr
          split at herr
          · simp_all
          · rename_i hnf
            rw [hfound] at hnf
            simpa using hnf
        · intro hany
          have hf : (List.foldl (fetchStep config) ⟨none, none, false⟩ (i :: is)).found_any_price = false := by
            rw [hfound, hany]
          rw [List.foldl_cons] at hf
          rw [if_neg (by simp [hf])]

/-- Claim C9, counterexample: a slot whose start_time field is present but
not of the format YYYY-MM-DD HH:MM:SS (strptime raises ValueError, caught
by the generic handler that only logs) is kept by the sweep no matter how
old it is, although the claim says a corrupt or unparsable slot is deleted
regardless of its age. -/
theorem C9_counterexample :
    cleanup_old_data_deletes (.record (some none) (some 0)) 1000000000 30 = false := by
  decide

/-- Claim C9, amended: the sweep's decision never reads last_fetch; a slot
with a parseable start_time is deleted exactly when that creation
timestamp is older than dataRetentionDays (so a monitor created 31 days
ago with dataRetentionDays = 30 is deleted regardless of its last fetch);
a JSON-corrupt slot or one missing start_time is deleted regardless of
age, but a slot whose start_time is present yet unparsable is kept and
only logged. -/
theorem C9_retention_decision (t lf lf2 nowT rd : Int) :
    (cleanup_old_data_deletes (.record (some (some t)) (some lf)) nowT rd =
       cleanup_old_data_deletes (.record (some (some t)) (some lf2)) nowT rd) ∧
    (cleanup_old_data_deletes (.record (some (some t)) (some lf)) nowT rd = true ↔
       t < nowT - rd * 86400) ∧
    cleanup_old_data_deletes (.record (some (some (nowT - 31 * 86400))) (some lf)) nowT 30 = true ∧
    cleanup_old_data_deletes .corrupt nowT rd = true ∧
    cleanup_old_data_deletes (.record none (some lf)) nowT rd = true ∧
    cleanup_old_data_deletes (.record (some none) (some lf)) nowT rd = false := by
  refine ⟨rfl, by simp [cleanup_old_data_deletes], ?_, rfl, rfl, rfl⟩
  simp [cleanup_old_data_deletes]

/-- Claim C10: every successful fetch result has its overall price
present, and whenever the restricted price is also present it is at least
the overall price, the restricted minimum being taken over a subset of the
flights that feed the overall minimum. -/
theorem C10_restricted_ge_overall (items : List RawItem) (config : UserConfig)
    (res : FetchOk) (h : fetch_single items config = .ok res) :
    res.overall.isSome = true ∧
    (∀ rp op, res.restricted = some rp → res.overall = some op → op ≤ rp) := by
  unfold fetch_single at h
  split at h
  · exact absurd h (by simp)
  · have hinv : FetchInv (items.foldl (fetchStep config) ⟨none, none, false⟩) :=
      foldl_fetchStep_inv config items _ ⟨by simp, by simp⟩
    dsimp only at h
    split at h
    · rename_i hfound
      injection h with h
      subst h
      obtain ⟨h1, h2⟩ := hinv
      refine ⟨by dsimp only; exact h1 hfound, ?_⟩
      intro rp op hrp hop
      dsimp only at hrp hop
      obtain ⟨op2, hop2, hle⟩ := h2 rp hrp
      rw [hop] at hop2
      injection hop2 with hop2
      omega
    · exact absurd h (by simp)

/-- Claim C10, witness: a scrape of two direct flights — one at 150000
failing the time constraints, one at 200000 satisfying them — returns
overall 150000 and restricted 200000, with the overall present and not
larger. -/
theorem C10_restricted_ge_overall_witness :
    fetch_single
        [⟨false, some ⟨(13, 0), (15, 0), (16, 0), (18, 0), 150000⟩⟩,
         ⟨false, some ⟨(8, 0), (10, 0), (16, 0), (18, 0), 200000⟩⟩]
        ⟨.exact, [], [], 9, 15⟩ =
      .ok ⟨some 200000, some 150000⟩ ∧
    ((some 150000 : Option Nat).isSome = true ∧
     (∀ rp op, (some 200000 : Option Nat) = some rp →
        (some 150000 : Option Nat) = some op → op ≤ rp)) :=
  ⟨rfl,
   C10_restricted_ge_overall
     [⟨false, some ⟨(13, 0), (15, 0), (16, 0), (18, 0), 150000⟩⟩,
      ⟨false, some ⟨(8, 0), (10, 0), (16, 0), (18, 0), 200000⟩⟩]
     ⟨.exact, [], [], 9, 15⟩ ⟨some 200000, some 150000⟩ rfl⟩

end FlightPriceChecker
